import Mathlib

/-!
Verification of the mount-and-shutdown lifecycle coordinator of the
hello-fuse program (src/main.go), as a shallow embedding in Lean 4.

The embedding covers:
* the identity resolver (`resolveUIDGID`, `getCurrentUIDGID`) including the
  Go `strconv.Atoi` parse and the `uint32` truncating conversions;
* the static filesystem surface built in `HelloRoot.OnAdd` / `Getattr`;
* the verification probe `tryStatFile` with its 3-attempt / 500ms loop;
* the lifecycle coordinator of `main`, modelled as a function from an
  abstract run description (mount outcome, first terminal post-mount
  event) to the ordered list of observable events plus the exit status.
-/

namespace HelloFuse

/-- Go conversion `uint32(x)` applied to a signed integer: two's-complement
truncation, i.e. reduction modulo 2^32 into the range [0, 2^32). -/
def toUint32 (x : Int) : Nat := (x % (2 ^ 32 : Int)).toNat

/-- Decimal value of a single character, when it is an ASCII digit. -/
def digitVal (c : Char) : Option Nat :=
  if c.isDigit then some (c.toNat - 48) else none

/-- Decimal value of a digit string; `none` when a non-digit occurs. -/
def digitsVal (cs : List Char) : Option Nat :=
  cs.foldl
    (fun acc c =>
      match acc, digitVal c with
      | some n, some d => some (n * 10 + d)
      | _, _ => none)
    (some 0)

/-- Go `strconv.Atoi`: optional sign, decimal digits, 64-bit signed range.
Note that Atoi accepts a leading minus sign, so strings denoting negative
integers parse successfully. -/
def goAtoi (s : String) : Except String Int :=
  let parts : Bool × List Char :=
    match s.toList with
    | '-' :: rest => (true, rest)
    | '+' :: rest => (false, rest)
    | cs => (false, cs)
  match parts with
  | (neg, ds) =>
    if ds.isEmpty then Except.error "invalid syntax"
    else
      match digitsVal ds with
      | none => Except.error "invalid syntax"
      | some n =>
        let v : Int := if neg then -(n : Int) else (n : Int)
        if v < -(2 ^ 63 : Int) ∨ (2 ^ 63 : Int) ≤ v then
          Except.error "value out of range"
        else Except.ok v

/-- Result of `user.Current()`: the `Uid` and `Gid` fields of `user.User`
that the program reads. -/
structure GoUser where
  Uid : String
  Gid : String
  deriving DecidableEq

/-- Embedding of `getCurrentUIDGID` (src/main.go:61-77). The outcome of the
`user.Current()` call is passed as the `current` argument; both identity
strings are parsed with `strconv.Atoi` and converted with `uint32(...)`. -/
def getCurrentUIDGID (current : Except String GoUser) :
    Except String (Nat × Nat) :=
  match current with
  | Except.error e => Except.error e
  | Except.ok u =>
    match goAtoi u.Uid with
    | Except.error e => Except.error e
    | Except.ok uidInt =>
      match goAtoi u.Gid with
      | Except.error e => Except.error e
      | Except.ok gidInt => Except.ok (toUint32 uidInt, toUint32 gidInt)

/-- Embedding of `resolveUIDGID` (src/main.go:47-59): the current-process
lookup happens first, unconditionally; `-1` is the sentinel replaced by the
looked-up value; the results go through `uint32(...)`. -/
def resolveUIDGID (current : Except String GoUser) (uid gid : Int) :
    Except String (Nat × Nat) :=
  match getCurrentUIDGID current with
  | Except.error e => Except.error e
  | Except.ok currentIds =>
    let uid2 : Int := if uid = -1 then (currentIds.1 : Int) else uid
    let gid2 : Int := if gid = -1 then (currentIds.2 : Int) else gid
    Except.ok (toUint32 uid2, toUint32 gid2)

/-- In-memory regular file node as built in `HelloRoot.OnAdd`
(src/main.go:26-35): content bytes, permission mode, stable inode. -/
structure MemRegularFile where
  Data : String
  Mode : Nat
  Ino : Nat
  deriving DecidableEq

/-- Literal content of the single exposed file: `[]byte("file.txt")`. -/
def helloFileData : String := "file.txt"

/-- Children attached to the root by `HelloRoot.OnAdd`: exactly one child,
named `file.txt`, with mode 0644 (octal) and stable inode number 2. -/
def helloRootOnAdd : List (String × MemRegularFile) :=
  [("file.txt", { Data := helloFileData, Mode := 0o644, Ino := 2 })]

/-- Mode reported by `HelloRoot.Getattr` for the root (src/main.go:37-40):
`out.Mode = 0755` (octal). -/
def helloRootGetattrMode : Nat := 0o755

/-- Size a `MemRegularFile` reports: the byte length of its content. -/
def memRegularFileSize (f : MemRegularFile) : Nat := f.Data.utf8ByteSize

/-- Path probed by the verification task: `mountpoint + "/file.txt"`. -/
def statPath (mountpoint : String) : String := mountpoint ++ "/file.txt"

/-- Loop body of `tryStatFile` (src/main.go:221-234). `stat i` tells whether
the i-th stat attempt succeeds. Returns (attempts made, 500ms sleeps done,
whether the final `err` is nil). A sleep follows every failed attempt,
including the last; the loop breaks before sleeping on success. -/
def statLoop (stat : Nat → Bool) (i : Nat) : Nat → Nat × Nat × Bool
  | 0 => (0, 0, true)
  | n + 1 =>
    if stat i then (1, 0, true)
    else if n = 0 then (1, 1, false)
    else
      let r := statLoop stat (i + 1) n
      (r.1 + 1, r.2.1 + 1, r.2.2)

/-- Embedding of `tryStatFile`: 3 attempts at `statPath mountpoint`; when
the final `err` is non-nil it reports the error and calls `os.Exit(1)`
(the `Option Nat` component is the exit call, `none` when it returns). -/
def tryStatFile (mountpoint : String) (stat : String → Nat → Bool) :
    (Nat × Nat × Bool) × Option Nat :=
  let r := statLoop (stat (statPath mountpoint)) 0 3
  (r, if r.2.2 then none else some 1)

/-- Outcome of the race between the async `fs.Mount` call and the
`mountTimeout` timer (src/main.go:178-191). `timedOut` carries whether the
abandoned background mount call would eventually succeed, which the
coordinator never inspects. -/
inductive MountOutcome where
  | timedOut (lateSuccess : Bool)
  | failed (msg : String)
  | ok
  deriving DecidableEq

/-- First terminal event once mounted (src/main.go:196-218): an OS signal
(with the outcome of the external `umount` subprocess), the verification
probe failing all attempts, or the server's serve-loop returning. -/
inductive PostEvent where
  | signalled (umountOk : Bool)
  | verifyFailed
  | serveReturned
  deriving DecidableEq

/-- Abstract description of one run of the program: command-line positional
arguments, `user.Current()` outcome, requested uid/gid flags, mount-race
outcome, and the first terminal post-mount event. -/
structure RunInput where
  args : List String
  current : Except String GoUser
  uid : Int
  gid : Int
  mount : MountOutcome
  post : PostEvent

/-- Observable events of a run, in order. `callServerUnmount` stands for
the mount service's own unmount primitive, which `main` never invokes. -/
inductive Event where
  | printUsage
  | reportResolveError (e : String)
  | printUsingIDs (u g : Nat)
  | reportMountError (msg : String)
  | reportBusyHint (mp : String)
  | printReady
  | reportSignalClosing
  | execUmount (mp : String)
  | callServerUnmount
  | reportUnmountError
  | reportVerifyError
  deriving DecidableEq

/-- Embedding of `main` (src/main.go:79-219) at the level of its observable
behaviour: the ordered event list and the process exit status. The missing
mountpoint path returns from `main` (exit 0); every error path calls
`os.Exit(1)`; the signal handler runs the external `umount` subprocess on
the mountpoint; a spontaneous serve-loop return releases the wait group and
`main` returns (exit 0). `Mount ready` is printed on the main goroutine
right after the probe goroutine is launched, before any post-mount event. -/
def runMain (inp : RunInput) : List Event × Nat :=
  if inp.args.length < 1 then ([Event.printUsage], 0)
  else
    let mp := inp.args.headD ""
    match resolveUIDGID inp.current inp.uid inp.gid with
    | Except.error e => ([Event.reportResolveError e], 1)
    | Except.ok ids =>
      match inp.mount with
      | MountOutcome.failed msg =>
        ([Event.printUsingIDs ids.1 ids.2, Event.reportMountError msg], 1)
      | MountOutcome.timedOut _ =>
        ([Event.printUsingIDs ids.1 ids.2, Event.reportBusyHint mp], 1)
      | MountOutcome.ok =>
        match inp.post with
        | PostEvent.signalled true =>
          ([Event.printUsingIDs ids.1 ids.2, Event.printReady,
            Event.reportSignalClosing, Event.execUmount mp], 0)
        | PostEvent.signalled false =>
          ([Event.printUsingIDs ids.1 ids.2, Event.printReady,
            Event.reportSignalClosing, Event.execUmount mp,
            Event.reportUnmountError], 1)
        | PostEvent.verifyFailed =>
          ([Event.printUsingIDs ids.1 ids.2, Event.printReady,
            Event.reportVerifyError], 1)
        | PostEvent.serveReturned =>
          ([Event.printUsingIDs ids.1 ids.2, Event.printReady], 0)

/-- Mountpoints passed to the external `umount` subprocess in a trace. -/
def umountCalls (tr : List Event) : List String :=
  tr.foldr
    (fun e acc =>
      match e with
      | Event.execUmount p => p :: acc
      | _ => acc)
    []

theorem toUint32_lt (x : Int) : toUint32 x < 2 ^ 32 := by
  unfold toUint32
  omega

theorem toUint32_coe (n : Nat) (h : n < 2 ^ 32) : toUint32 (n : Int) = n := by
  unfold toUint32
  omega

theorem getCurrentUIDGID_lt (c : Except String GoUser) (a b : Nat)
    (h : getCurrentUIDGID c = Except.ok (a, b)) :
    a < 2 ^ 32 ∧ b < 2 ^ 32 := by
  unfold getCurrentUIDGID at h
  cases c with
  | error e => simp at h
  | ok usr =>
    cases h1 : goAtoi usr.Uid with
    | error e => simp [h1] at h
    | ok uidInt =>
      cases h2 : goAtoi usr.Gid with
      | error e => simp [h1, h2] at h
      | ok gidInt =>
        simp only [h1, h2, Except.ok.injEq, Prod.mk.injEq] at h
        obtain ⟨ha, hb⟩ := h
        subst ha
        subst hb
        exact ⟨toUint32_lt uidInt, toUint32_lt gidInt⟩

/-- C1: in every run whose mount call has not completed within the
configured mountTimeout (whether or not the abandoned background call would
eventually succeed), the coordinator emits the busy-mountpoint diagnostic
hinting at an unmount retry and the process exits with status 1. -/
theorem C1_mount_timeout (inp : RunInput) (u g : Nat) (late : Bool)
    (h1 : 1 ≤ inp.args.length)
    (h2 : resolveUIDGID inp.current inp.uid inp.gid = Except.ok (u, g))
    (h3 : inp.mount = MountOutcome.timedOut late) :
    (runMain inp).2 = 1 ∧
    Event.reportBusyHint (inp.args.headD "") ∈ (runMain inp).1 := by
  have hlen : ¬ inp.args.length < 1 := by omega
  simp [runMain, hlen, h2, h3]

/-- Witness for C1 at a concrete run whose background mount call would
later succeed: exit status is still 1 and the hint is still emitted. -/
theorem C1_mount_timeout_witness :
    (runMain
      { args := ["/mnt/hello"],
        current := Except.ok { Uid := "1000", Gid := "1000" },
        uid := -1, gid := -1,
        mount := MountOutcome.timedOut true,
        post := PostEvent.serveReturned }).2 = 1 ∧
    Event.reportBusyHint
      ((["/mnt/hello"] : List String).headD "") ∈
      (runMain
        { args := ["/mnt/hello"],
          current := Except.ok { Uid := "1000", Gid := "1000" },
          uid := -1, gid := -1,
          mount := MountOutcome.timedOut true,
          post := PostEvent.serveReturned }).1 :=
  C1_mount_timeout
    { args := ["/mnt/hello"],
      current := Except.ok { Uid := "1000", Gid := "1000" },
      uid := -1, gid := -1,
      mount := MountOutcome.timedOut true,
      post := PostEvent.serveReturned }
    1000 1000 true (by simp) (by rfl) rfl

/-- C2: the verification probe stats `<mountpoint>/file.txt`; if all 3
attempts fail it makes exactly 3 attempts (each failed attempt followed by
the fixed 500ms sleep), reports the error and exits with status 1; if the
first success is at attempt k it stops there (k attempts, k-1 sleeps in
between) without error and without exiting. -/
theorem C2_probe_verification (mp : String) (stat : String → Nat → Bool) :
    ((∀ i, i < 3 → stat (statPath mp) i = false) →
      tryStatFile mp stat = ((3, 3, false), some 1)) ∧
    (∀ k, k < 3 → stat (statPath mp) k = true →
      (∀ j, j < k → stat (statPath mp) j = false) →
      tryStatFile mp stat = ((k + 1, k, true), none)) := by
  constructor
  · intro hall
    have h0 := hall 0 (by omega)
    have h1 := hall 1 (by omega)
    have h2 := hall 2 (by omega)
    simp [tryStatFile, statLoop, h0, h1, h2]
  · intro k hk hks hbefore
    interval_cases k
    · simp [tryStatFile, statLoop, hks]
    · have h0 := hbefore 0 (by omega)
      simp [tryStatFile, statLoop, h0, hks]
    · have h0 := hbefore 0 (by omega)
      have h1 := hbefore 1 (by omega)
      simp [tryStatFile, statLoop, h0, h1, hks]

/-- Witness for C2 at a probe whose stat attempts all fail: 3 attempts,
3 sleeps, error reported, exit status 1. -/
theorem C2_probe_verification_witness :
    tryStatFile "/mnt/hello" (fun _ _ => false) = ((3, 3, false), some 1) :=
  (C2_probe_verification "/mnt/hello" (fun _ _ => false)).1
    (fun _ _ => rfl)

/-- C3 counterexample: a concrete mounted run in which every probe attempt
fails (so no probe of the mounted file ever succeeds), yet the readiness
message is reported — before the verification error. This refutes the
claim that readiness is reported only upon the first successful probe. -/
theorem C3_counterexample :
    runMain
      { args := ["/mnt/hello"],
        current := Except.ok { Uid := "1000", Gid := "1000" },
        uid := -1, gid := -1,
        mount := MountOutcome.ok,
        post := PostEvent.verifyFailed } =
      ([Event.printUsingIDs 1000 1000, Event.printReady,
        Event.reportVerifyError], 1) := by
  rfl

/-- C3 amended: once the mount call succeeds within the timeout, the
readiness message is reported unconditionally, immediately after the probe
task is launched and before any post-mount outcome (probe failure, signal,
or serve-loop return) is known; the coordinator then blocks awaiting a
termination signal or the mount service's completion. -/
theorem C3_ready_before_probe_outcome (inp : RunInput) (u g : Nat)
    (h1 : 1 ≤ inp.args.length)
    (h2 : resolveUIDGID inp.current inp.uid inp.gid = Except.ok (u, g))
    (h3 : inp.mount = MountOutcome.ok) :
    ∃ l, (runMain inp).1 =
      Event.printUsingIDs u g :: Event.printReady :: l := by
  have hlen : ¬ inp.args.length < 1 := by omega
  cases hp : inp.post with
  | signalled ok =>
    cases ok
    · exact ⟨[Event.reportSignalClosing, Event.execUmount (inp.args.headD ""),
        Event.reportUnmountError], by simp [runMain, hlen, h2, h3, hp]⟩
    · exact ⟨[Event.reportSignalClosing, Event.execUmount (inp.args.headD "")],
        by simp [runMain, hlen, h2, h3, hp]⟩
  | verifyFailed =>
    exact ⟨[Event.reportVerifyError], by simp [runMain, hlen, h2, h3, hp]⟩
  | serveReturned =>
    exact ⟨[], by simp [runMain, hlen, h2, h3, hp]⟩

/-- Witness for the amended C3 at a concrete run whose probe fails:
readiness is reported nonetheless. -/
theorem C3_ready_before_probe_outcome_witness :
    ∃ l, (runMain
      { args := ["/mnt/hello"],
        current := Except.ok { Uid := "1000", Gid := "1000" },
        uid := -1, gid := -1,
        mount := MountOutcome.ok,
        post := PostEvent.verifyFailed }).1 =
      Event.printUsingIDs 1000 1000 :: Event.printReady :: l :=
  C3_ready_before_probe_outcome
    { args := ["/mnt/hello"],
      current := Except.ok { Uid := "1000", Gid := "1000" },
      uid := -1, gid := -1,
      mount := MountOutcome.ok,
      post := PostEvent.verifyFailed }
    1000 1000 (by simp) (by rfl) rfl

/-- C4: in every mounted run terminated by an interrupt or termination
signal, the external `umount` subprocess is invoked exactly once, against
exactly the mountpoint path; the mount service's own unmount primitive is
never called; the process exits 0 when the command succeeds and, after
reporting the failure, 1 when it fails. -/
theorem C4_signal_unmount (inp : RunInput) (u g : Nat) (ok : Bool)
    (h1 : 1 ≤ inp.args.length)
    (h2 : resolveUIDGID inp.current inp.uid inp.gid = Except.ok (u, g))
    (h3 : inp.mount = MountOutcome.ok)
    (h4 : inp.post = PostEvent.signalled ok) :
    umountCalls (runMain inp).1 = [inp.args.headD ""] ∧
    Event.callServerUnmount ∉ (runMain inp).1 ∧
    (runMain inp).2 = (if ok then 0 else 1) ∧
    (ok = false → Event.reportUnmountError ∈ (runMain inp).1) := by
  have hlen : ¬ inp.args.length < 1 := by omega
  cases ok
  · simp [runMain, hlen, h2, h3, h4, umountCalls]
  · simp [runMain, hlen, h2, h3, h4, umountCalls]

/-- Witness for C4 at a concrete signalled run whose `umount` command
fails: one external unmount call on the exact path, exit status 1, failure
reported. -/
theorem C4_signal_unmount_witness :
    umountCalls (runMain
      { args := ["/mnt/hello"],
        current := Except.ok { Uid := "1000", Gid := "1000" },
        uid := -1, gid := -1,
        mount := MountOutcome.ok,
        post := PostEvent.signalled false }).1 =
      [(["/mnt/hello"] : List String).headD ""] ∧
    Event.callServerUnmount ∉ (runMain
      { args := ["/mnt/hello"],
        current := Except.ok { Uid := "1000", Gid := "1000" },
        uid := -1, gid := -1,
        mount := MountOutcome.ok,
        post := PostEvent.signalled false }).1 ∧
    (runMain
      { args := ["/mnt/hello"],
        current := Except.ok { Uid := "1000", Gid := "1000" },
        uid := -1, gid := -1,
        mount := MountOutcome.ok,
        post := PostEvent.signalled false }).2 = (if false then 0 else 1) ∧
    (false = false → Event.reportUnmountError ∈ (runMain
      { args := ["/mnt/hello"],
        current := Except.ok { Uid := "1000", Gid := "1000" },
        uid := -1, gid := -1,
        mount := MountOutcome.ok,
        post := PostEvent.signalled false }).1) :=
  C4_signal_unmount
    { args := ["/mnt/hello"],
      current := Except.ok { Uid := "1000", Gid := "1000" },
      uid := -1, gid := -1,
      mount := MountOutcome.ok,
      post := PostEvent.signalled false }
    1000 1000 false (by simp) (by rfl) rfl rfl

/-- C5 counterexample: identity resolution of the non-sentinel requested
uid -2 (with gid 7) does not pass -2 through unchanged: the `uint32`
conversion truncates it to 4294967294. -/
theorem C5_counterexample :
    resolveUIDGID (Except.ok { Uid := "1000", Gid := "1000" }) (-2) 7 =
      Except.ok (4294967294, 7) ∧
    ((4294967294 : Int) ≠ (-2 : Int)) := by
  constructor
  · rfl
  · decide

/-- C5 amended: when the current-identity lookup succeeds, the sentinel -1
is replaced by the looked-up uid (resp. gid) independently, and every
non-sentinel requested value passes through the `uint32` conversion, i.e.
is reduced modulo 2^32 — which leaves it unchanged exactly when it already
lies in [0, 2^32). -/
theorem C5_resolution (c : Except String GoUser) (cu cg : Nat)
    (h : getCurrentUIDGID c = Except.ok (cu, cg)) (u g : Int) :
    resolveUIDGID c u g =
      Except.ok ((if u = -1 then cu else toUint32 u),
                 (if g = -1 then cg else toUint32 g)) ∧
    (0 ≤ u → u < 2 ^ 32 → ((toUint32 u : Int) = u)) ∧
    (0 ≤ g → g < 2 ^ 32 → ((toUint32 g : Int) = g)) := by
  obtain ⟨hcu, hcg⟩ := getCurrentUIDGID_lt c cu cg h
  refine ⟨?_, ?_, ?_⟩
  · unfold resolveUIDGID
    rw [h]
    by_cases hu : u = -1 <;> by_cases hg : g = -1 <;>
      simp [hu, hg, toUint32_coe cu hcu, toUint32_coe cg hcg]
  · intro hnn hlt
    unfold toUint32
    omega
  · intro hnn hlt
    unfold toUint32
    omega

/-- Witness for the amended C5: sentinel uid together with an explicit
in-range gid, at a concrete identity. -/
theorem C5_resolution_witness :
    resolveUIDGID (Except.ok { Uid := "1000", Gid := "1000" }) (-1) 7 =
      Except.ok ((if (-1 : Int) = -1 then 1000 else toUint32 (-1)),
                 (if (7 : Int) = -1 then 1000 else toUint32 7)) ∧
    (0 ≤ (-1 : Int) → (-1 : Int) < 2 ^ 32 → ((toUint32 (-1) : Int) = -1)) ∧
    (0 ≤ (7 : Int) → (7 : Int) < 2 ^ 32 → ((toUint32 7 : Int) = 7)) :=
  C5_resolution (Except.ok { Uid := "1000", Gid := "1000" }) 1000 1000
    (by rfl) (-1) 7

/-- C6 counterexample: the identity string "-5" denotes a negative integer,
yet `getCurrentUIDGID` succeeds on it — `strconv.Atoi` parses signed
integers, and the `uint32` conversion truncates -5 to 4294967291 — so the
claim that resolution fails on every negative identity string is false. -/
theorem C6_counterexample :
    getCurrentUIDGID (Except.ok { Uid := "-5", Gid := "0" }) =
      Except.ok (4294967291, 0) ∧
    resolveUIDGID (Except.ok { Uid := "-5", Gid := "0" }) 7 7 =
      Except.ok (7, 7) := by
  constructor
  · rfl
  · rfl

/-- C6 amended: identity resolution fails exactly when the current-process
lookup is unavailable or one of the identity strings cannot be parsed by
`strconv.Atoi` as a signed 64-bit integer (negative strings parse
successfully and are truncated); and whenever it fails, a run that reaches
resolution exits with status 1. -/
theorem C6_resolution_failure (c : Except String GoUser) (u g : Int) :
    ((∃ e, resolveUIDGID c u g = Except.error e) ↔
      ((∃ e, c = Except.error e) ∨
        (∃ usr, c = Except.ok usr ∧
          ((∃ e, goAtoi usr.Uid = Except.error e) ∨
            (∃ e, goAtoi usr.Gid = Except.error e))))) ∧
    (∀ inp : RunInput, 1 ≤ inp.args.length →
      inp.current = c → inp.uid = u → inp.gid = g →
      (∃ e, resolveUIDGID c u g = Except.error e) →
      (runMain inp).2 = 1 ∧
        (∃ e, Event.reportResolveError e ∈ (runMain inp).1)) := by
  constructor
  · cases c with
    | error e =>
      simp [resolveUIDGID, getCurrentUIDGID]
    | ok usr =>
      cases h1 : goAtoi usr.Uid with
      | error e =>
        simp [resolveUIDGID, getCurrentUIDGID, h1]
      | ok uidInt =>
        cases h2 : goAtoi usr.Gid with
        | error e =>
          simp [resolveUIDGID, getCurrentUIDGID, h1, h2]
        | ok gidInt =>
          simp [resolveUIDGID, getCurrentUIDGID, h1, h2]
  · intro inp hlen hc hu hg hfail
    obtain ⟨e, he⟩ := hfail
    have hlen2 : ¬ inp.args.length < 1 := by omega
    rw [← hc, ← hu, ← hg] at he
    refine ⟨?_, e, ?_⟩
    · simp [runMain, hlen2, he]
    · simp [runMain, hlen2, he]

/-- Witness for the amended C6 at a concrete failed lookup: resolution
fails and the run exits with status 1 reporting the resolution error. -/
theorem C6_resolution_failure_witness :
    (runMain
      { args := ["/mnt/hello"],
        current := Except.error "user: lookup failed",
        uid := 5, gid := 6,
        mount := MountOutcome.ok,
        post := PostEvent.serveReturned }).2 = 1 ∧
    (∃ e, Event.reportResolveError e ∈ (runMain
      { args := ["/mnt/hello"],
        current := Except.error "user: lookup failed",
        uid := 5, gid := 6,
        mount := MountOutcome.ok,
        post := PostEvent.serveReturned }).1) :=
  (C6_resolution_failure (Except.error "user: lookup failed") 5 6).2
    { args := ["/mnt/hello"],
      current := Except.error "user: lookup failed",
      uid := 5, gid := 6,
      mount := MountOutcome.ok,
      post := PostEvent.serveReturned }
    (by simp) rfl rfl rfl ⟨"user: lookup failed", by rfl⟩

/-- C7: a run with zero positional arguments prints the usage message only
and exits with status 0, unlike the error paths which exit with status 1. -/
theorem C7_missing_argument (inp : RunInput) (h : inp.args = []) :
    runMain inp = ([Event.printUsage], 0) := by
  simp [runMain, h]

/-- Witness for C7 at a concrete argument-less run. -/
theorem C7_missing_argument_witness :
    runMain
      { args := [],
        current := Except.ok { Uid := "1000", Gid := "1000" },
        uid := -1, gid := -1,
        mount := MountOutcome.ok,
        post := PostEvent.serveReturned } = ([Event.printUsage], 0) :=
  C7_missing_argument
    { args := [],
      current := Except.ok { Uid := "1000", Gid := "1000" },
      uid := -1, gid := -1,
      mount := MountOutcome.ok,
      post := PostEvent.serveReturned }
    rfl

/-- C8: in every mounted run whose first terminal event is the serve-loop
returning on its own (before any termination signal), the process exits
with status 0 and the external `umount` subprocess is never invoked. -/
theorem C8_spontaneous_unmount (inp : RunInput) (u g : Nat)
    (h1 : 1 ≤ inp.args.length)
    (h2 : resolveUIDGID inp.current inp.uid inp.gid = Except.ok (u, g))
    (h3 : inp.mount = MountOutcome.ok)
    (h4 : inp.post = PostEvent.serveReturned) :
    (runMain inp).2 = 0 ∧ umountCalls (runMain inp).1 = [] := by
  have hlen : ¬ inp.args.length < 1 := by omega
  simp [runMain, hlen, h2, h3, h4, umountCalls]

/-- Witness for C8 at a concrete spontaneous-unmount run. -/
theorem C8_spontaneous_unmount_witness :
    (runMain
      { args := ["/mnt/hello"],
        current := Except.ok { Uid := "1000", Gid := "1000" },
        uid := -1, gid := -1,
        mount := MountOutcome.ok,
        post := PostEvent.serveReturned }).2 = 0 ∧
    umountCalls (runMain
      { args := ["/mnt/hello"],
        current := Except.ok { Uid := "1000", Gid := "1000" },
        uid := -1, gid := -1,
        mount := MountOutcome.ok,
        post := PostEvent.serveReturned }).1 = [] :=
  C8_spontaneous_unmount
    { args := ["/mnt/hello"],
      current := Except.ok { Uid := "1000", Gid := "1000" },
      uid := -1, gid := -1,
      mount := MountOutcome.ok,
      post := PostEvent.serveReturned }
    1000 1000 (by simp) (by rfl) rfl rfl

/-- C9: the static surface fixed at attach time: the root reports mode 0755
via Getattr, and OnAdd attaches exactly one child, the regular file
`file.txt`, with mode 0644, stable inode number 2, and size equal to the
byte length of the literal content (8 bytes of "file.txt"). -/
theorem C9_static_surface :
    helloRootGetattrMode = 0o755 ∧
    helloRootOnAdd.length = 1 ∧
    (∀ p, p ∈ helloRootOnAdd →
      p.1 = "file.txt" ∧ p.2.Mode = 0o644 ∧ p.2.Ino = 2 ∧
      memRegularFileSize p.2 = helloFileData.utf8ByteSize ∧
      memRegularFileSize p.2 = 8) := by
  refine ⟨rfl, rfl, ?_⟩
  intro p hp
  simp only [helloRootOnAdd, List.mem_singleton] at hp
  subst hp
  exact ⟨rfl, rfl, rfl, rfl, rfl⟩

/-- C10: `resolveUIDGID` performs the current-identity lookup first,
unconditionally: even when both requested values are explicit non-sentinel
(so neither looked-up value would be used), a failed lookup makes
resolution fail and the run abort with exit status 1. -/
theorem C10_unconditional_lookup (inp : RunInput) (e : String)
    (h1 : 1 ≤ inp.args.length)
    (h2 : inp.current = Except.error e)
    (h3 : inp.uid ≠ -1)
    (h4 : inp.gid ≠ -1) :
    resolveUIDGID inp.current inp.uid inp.gid = Except.error e ∧
    (runMain inp).2 = 1 ∧
    Event.reportResolveError e ∈ (runMain inp).1 := by
  have hlen : ¬ inp.args.length < 1 := by omega
  have hres : resolveUIDGID inp.current inp.uid inp.gid = Except.error e := by
    simp [resolveUIDGID, getCurrentUIDGID, h2]
  refine ⟨hres, ?_, ?_⟩
  · simp [runMain, hlen, hres]
  · simp [runMain, hlen, hres]

/-- Witness for C10 at a concrete run with explicit uid 1234, gid 5678 and
a failed identity lookup. -/
theorem C10_unconditional_lookup_witness :
    resolveUIDGID (Except.error "user: unreachable") 1234 5678 =
      Except.error "user: unreachable" ∧
    (runMain
      { args := ["/mnt/hello"],
        current := Except.error "user: unreachable",
        uid := 1234, gid := 5678,
        mount := MountOutcome.ok,
        post := PostEvent.serveReturned }).2 = 1 ∧
    Event.reportResolveError "user: unreachable" ∈ (runMain
      { args := ["/mnt/hello"],
        current := Except.error "user: unreachable",
        uid := 1234, gid := 5678,
        mount := MountOutcome.ok,
        post := PostEvent.serveReturned }).1 :=
  C10_unconditional_lookup
    { args := ["/mnt/hello"],
      current := Except.error "user: unreachable",
      uid := 1234, gid := 5678,
      mount := MountOutcome.ok,
      post := PostEvent.serveReturned }
    "user: unreachable" (by simp) rfl (by decide) (by decide)

end HelloFuse
